import Mathlib

/-!
Shallow embedding of the trip-planner component in
`src/src/components/MapView.tsx`.

The component keeps an ordered list of stops, issues geocoding and
directions requests against a mapping provider, and mirrors every user
action into this state.  The embedding models:

* JS numbers used as coordinates as `Int` (the claims at issue are
  structural: list order, an exact `+ 2` offset, string joins);
* the two outbound `fetch` calls as an explicit outcome parameter
  `Except Unit …` supplied to the operation (an `Except.error` is a
  rejected promise / thrown exception);
* a thrown-and-uncaught exception as the `Except.error` constructor of
  the operation's result, carrying the component state at the throw
  point (React state committed before the throw survives it);
* `toast`/notifications, geocoding requests and directions requests as
  append-only logs inside the state, so that "a request was attempted"
  and "exactly one notification was emitted" are inspectable;
* `Date.now().toString()` id generation as an explicit `newId` argument;
* `encodeURIComponent` as the identity on the query string (URL-escaping
  is irrelevant to every property below).
-/

/-- A named waypoint: `interface Stop` (MapView.tsx lines 15-19).
`coordinates` is the `[longitude, latitude]` pair. -/
structure Stop where
  id : String
  name : String
  coordinates : Int × Int
deriving DecidableEq, Repr

/-- A geocoding candidate: `interface SearchResult` (lines 21-24). -/
structure SearchResult where
  place_name : String
  center : Int × Int
deriving DecidableEq, Repr

/-- Opaque route geometry returned by the directions endpoint
(`data.routes[i].geometry`); its contents are never inspected. -/
structure RouteGeometry where
  geojson : String
deriving DecidableEq, Repr

/-- A user-facing notification: the argument of `toast({title, description})`. -/
structure Toast where
  title : String
  description : String
deriving DecidableEq, Repr

/-- The component state: the `useState` hooks of `MapView`, the map's
`route` source data (`routeOverlay`), whether `map.current` is non-null
(`mapPresent`), plus append-only logs of emitted toasts and issued
HTTP requests. -/
structure AppState where
  mapboxToken : String
  mapPresent : Bool
  stops : List Stop
  newStopName : String
  searchQuery : String
  searchResults : List SearchResult
  routeOverlay : Option RouteGeometry
  notifications : List Toast
  directionsRequests : List String
  geocodingRequests : List String
deriving DecidableEq, Repr

/-- Emit one toast: `toast({...})`. -/
def pushToast (st : AppState) (t : Toast) : AppState :=
  { st with notifications := st.notifications ++ [t] }

/-- JS `[lng, lat].toString()`, as produced element-wise by
`currentStops.map(stop => stop.coordinates).join(';')` (line 140). -/
def coordPairString (c : Int × Int) : String :=
  toString c.1 ++ "," ++ toString c.2

/-- The semicolon join of line 140. -/
def coordinatesJoined (stops : List Stop) : String :=
  String.intercalate ";" (stops.map (fun s => coordPairString s.coordinates))

/-- The directions request URL of lines 141-143. -/
def directionsUrl (token : String) (stops : List Stop) : String :=
  "https://api.mapbox.com/directions/v5/mapbox/driving/" ++ coordinatesJoined stops
    ++ "?geometries=geojson&access_token=" ++ token

/-- The geocoding request URL of lines 75-77. -/
def geocodingUrl (token : String) (query : String) : String :=
  "https://api.mapbox.com/geocoding/v5/mapbox.places/" ++ query
    ++ ".json?access_token=" ++ token ++ "&country=se"

/-- Record that the directions fetch of lines 141-143 was issued. -/
def logDirections (currentStops : List Stop) (st : AppState) : AppState :=
  { st with directionsRequests :=
      st.directionsRequests ++ [directionsUrl st.mapboxToken currentStops] }

/-- Record that the geocoding fetch of lines 75-77 was issued. -/
def logGeocoding (query : String) (st : AppState) : AppState :=
  { st with geocodingRequests :=
      st.geocodingRequests ++ [geocodingUrl st.mapboxToken query] }

/-- `updateRoute` (lines 137-177).  Guard: `if (!map.current ||
currentStops.length < 2) return;`.  Otherwise the fetch is issued; the
function has no try/catch, so a rejected fetch — or an empty `routes`
array, where `data.routes[0].geometry` throws — yields `Except.error`
(an unhandled rejection).  On success the `route` source is set to the
first candidate's geometry (`data.routes[0].geometry`), creating the
overlay if absent; either way the overlay holds that geometry. -/
def updateRoute (currentStops : List Stop)
    (fetchOutcome : Except Unit (List RouteGeometry))
    (st : AppState) : Except AppState AppState :=
  if st.mapPresent = false ∨ currentStops.length < 2 then Except.ok st
  else
    match fetchOutcome with
    | Except.error _ => Except.error (logDirections currentStops st)
    | Except.ok [] => Except.error (logDirections currentStops st)
    | Except.ok (g :: _) =>
        Except.ok { logDirections currentStops st with routeOverlay := some g }

/-- The component state after an operation, whether or not it ended in an
unhandled rejection: the fire-and-forget callers of `updateRoute` are not
interrupted by the rejection, and React state committed before the throw
point persists. -/
def stateOf : Except AppState AppState → AppState
  | Except.ok s => s
  | Except.error s => s

/-- The confirmation toast of `addStop` (lines 123-126). -/
def addedToast (newStop : Stop) : Toast :=
  { title := "Stopp tillagt", description := newStop.name ++ " har lagts till i din rutt" }

/-- `addStop` (lines 117-127): append the stop, fire `updateRoute` on the
updated list (not awaited — its rejection does not interrupt `addStop`),
then emit the confirmation toast. -/
def addStop (newStop : Stop) (routeOutcome : Except Unit (List RouteGeometry))
    (st : AppState) : AppState :=
  pushToast
    (stateOf (updateRoute (st.stops ++ [newStop]) routeOutcome
      { st with stops := st.stops ++ [newStop] }))
    (addedToast newStop)

/-- `removeStop` (lines 129-135): `prev.filter(stop => stop.id !== id)`,
then fire `updateRoute` on the filtered list. -/
def removeStop (id : String) (routeOutcome : Except Unit (List RouteGeometry))
    (st : AppState) : AppState :=
  stateOf (updateRoute (st.stops.filter (fun s => decide (s.id ≠ id))) routeOutcome
    { st with stops := st.stops.filter (fun s => decide (s.id ≠ id)) })

/-- The error toast of `searchLocations` (lines 85-88). -/
def searchErrorToast : Toast :=
  { title := "Sökfel", description := "Kunde inte söka efter platser just nu" }

/-- `searchLocations` (lines 68-90).  Guard `if (!query || query.length < 3)`
collapses to `query.length < 3` (the empty string has length 0): clear the
results and return without fetching.  Otherwise the geocoding fetch is
issued inside try/catch: on success the results are replaced, on any
failure the catch emits the generic error toast — the function never
throws. -/
def searchLocations (query : String)
    (fetchOutcome : Except Unit (List SearchResult))
    (st : AppState) : AppState :=
  if query.length < 3 then { st with searchResults := [] }
  else
    match fetchOutcome with
    | Except.ok results => { logGeocoding query st with searchResults := results }
    | Except.error _ => pushToast (logGeocoding query st) searchErrorToast

/-- The missing-name toast of lines 60-63 and 110-113. -/
def nameMissingToast : Toast :=
  { title := "Ange ett namn", description := "Vänligen ange ett namn för stoppet först" }

/-- `handleSearchSelect` (lines 92-115): with a pending stop name, add a
stop at the selected result's center and clear the name, the query and the
results (the `flyTo` camera move is not part of the modelled state);
without one, emit the missing-name toast and change nothing else. -/
def handleSearchSelect (result : SearchResult) (newId : String)
    (routeOutcome : Except Unit (List RouteGeometry)) (st : AppState) : AppState :=
  if st.newStopName ≠ "" then
    { addStop { id := newId, name := st.newStopName, coordinates := result.center }
        routeOutcome st with
      newStopName := "", searchQuery := "", searchResults := [] }
  else
    pushToast st nameMissingToast

/-- The map click listener (lines 51-65): with a pending stop name, add a
stop at the clicked coordinate and clear the name; without one, emit the
missing-name toast. -/
def handleMapClick (clicked : Int × Int) (newId : String)
    (routeOutcome : Except Unit (List RouteGeometry)) (st : AppState) : AppState :=
  if st.newStopName ≠ "" then
    { addStop { id := newId, name := st.newStopName, coordinates := clicked }
        routeOutcome st with
      newStopName := "" }
  else
    pushToast st nameMissingToast

/-- `suggestStop` (lines 179-193): no-op below two stops; otherwise append
a stop at the last stop's coordinates shifted by +2 in longitude
(`stops[stops.length - 1]` is `getLast?` here), named
`Föreslaget stopp ⟨n+1⟩`. -/
def suggestStop (newId : String) (routeOutcome : Except Unit (List RouteGeometry))
    (st : AppState) : AppState :=
  if st.stops.length < 2 then st
  else
    match st.stops.getLast? with
    | none => st
    | some lastStop =>
        addStop
          { id := newId,
            name := "Föreslaget stopp " ++ toString (st.stops.length + 1),
            coordinates := (lastStop.coordinates.1 + 2, lastStop.coordinates.2) }
          routeOutcome st

/-- The debounce effect (lines 201-209): when the timer fires it calls
`searchLocations(searchQuery)` only when `searchQuery` is non-empty. -/
def debounceFired (fetchOutcome : Except Unit (List SearchResult))
    (st : AppState) : AppState :=
  if st.searchQuery ≠ "" then searchLocations st.searchQuery fetchOutcome st else st

/-- A component state with an empty trip, an active map and empty logs;
base state for the concrete witnesses below. -/
def st0 : AppState :=
  { mapboxToken := "token", mapPresent := true, stops := [], newStopName := "",
    searchQuery := "", searchResults := [], routeOverlay := none, notifications := [],
    directionsRequests := [], geocodingRequests := [] }

/-- The stop `A(10,20)` of the spec's example. -/
def stopA : Stop := { id := "a", name := "A", coordinates := (10, 20) }

/-- The stop `B(12,22)` of the spec's example. -/
def stopB : Stop := { id := "b", name := "B", coordinates := (12, 22) }

/-! ### Helper lemmas -/

/-- `updateRoute` only touches the overlay and the directions log: stops,
notifications, pending name, query and results pass through unchanged. -/
theorem updateRoute_preserves (currentStops : List Stop)
    (fetchOutcome : Except Unit (List RouteGeometry)) (st : AppState) :
    (stateOf (updateRoute currentStops fetchOutcome st)).stops = st.stops ∧
    (stateOf (updateRoute currentStops fetchOutcome st)).notifications = st.notifications ∧
    (stateOf (updateRoute currentStops fetchOutcome st)).newStopName = st.newStopName := by
  unfold updateRoute
  split
  · exact ⟨rfl, rfl, rfl⟩
  · cases fetchOutcome with
    | error e => exact ⟨rfl, rfl, rfl⟩
    | ok routes =>
        cases routes with
        | nil => exact ⟨rfl, rfl, rfl⟩
        | cons g gs => exact ⟨rfl, rfl, rfl⟩

/-- `addStop` appends the stop and emits exactly the confirmation toast,
whatever the outcome of the route fetch. -/
theorem addStop_effects (newStop : Stop)
    (routeOutcome : Except Unit (List RouteGeometry)) (st : AppState) :
    (addStop newStop routeOutcome st).stops = st.stops ++ [newStop] ∧
    (addStop newStop routeOutcome st).notifications
      = st.notifications ++ [addedToast newStop] := by
  have h := updateRoute_preserves (st.stops ++ [newStop]) routeOutcome
      { st with stops := st.stops ++ [newStop] }
  unfold addStop pushToast
  exact ⟨h.1, by rw [h.2.1]⟩

/-- Removing the entries matching an identifier and counting the entries
carrying it together exhaust the list. -/
theorem countP_filter_ne_id (id : String) (l : List Stop) :
    (l.filter (fun s => decide (s.id ≠ id))).length
      + l.countP (fun s => decide (s.id = id)) = l.length := by
  induction l with
  | nil => rfl
  | cons x xs ih =>
      simp only [List.filter_cons, List.countP_cons, List.length_cons]
      by_cases h : x.id = id
      · rw [if_neg (by simp [h]), if_pos (by simp [h])]
        omega
      · rw [if_pos (by simp [h]), if_neg (by simp [h])]
        simp only [List.length_cons]
        omega

/-! ### Claim theorems -/

/-- C1: `suggestStop` with fewer than 2 stops changes nothing at all; with
at least 2 stops it appends exactly one new stop whose coordinates are the
last stop's shifted by +2 in longitude and unchanged in latitude, with an
auto-generated name, preserving the existing stops and their order. -/
theorem suggestStop_spec (newId : String)
    (routeOutcome : Except Unit (List RouteGeometry)) (st : AppState) :
    (st.stops.length < 2 → suggestStop newId routeOutcome st = st) ∧
    (∀ lastStop, 2 ≤ st.stops.length → st.stops.getLast? = some lastStop →
      (suggestStop newId routeOutcome st).stops
        = st.stops ++ [{ id := newId,
                         name := "Föreslaget stopp " ++ toString (st.stops.length + 1),
                         coordinates := (lastStop.coordinates.1 + 2, lastStop.coordinates.2) }]) := by
  constructor
  · intro h
    unfold suggestStop
    rw [if_pos h]
  · intro lastStop h2 hl
    unfold suggestStop
    rw [if_neg (by omega), hl]
    exact (addStop_effects _ _ _).1

/-- C1 witness: the spec's example, stops `[A(10,20), B(12,22)]`, gains a
third stop at `(14,22)` and reaches length 3. -/
theorem suggestStop_spec_witness :
    (suggestStop "c" (Except.ok []) { st0 with stops := [stopA, stopB] }).stops
        = [stopA, stopB,
           { id := "c", name := "Föreslaget stopp 3", coordinates := (14, 22) }] ∧
    (suggestStop "c" (Except.ok []) { st0 with stops := [stopA, stopB] }).stops.length = 3 := by
  have h := (suggestStop_spec "c" (Except.ok [])
      { st0 with stops := [stopA, stopB] }).2 stopB (by decide) (by decide)
  rw [h]
  constructor
  · rfl
  · rfl

/-- C2: with the map present, the directions request is attempted (the
request log grows by the request for the current list) exactly when the
list has at least two stops; with fewer, `updateRoute` returns the state
unchanged — in particular any existing route overlay stays in place. -/
theorem updateRoute_guard (currentStops : List Stop)
    (fetchOutcome : Except Unit (List RouteGeometry)) (st : AppState)
    (hm : st.mapPresent = true) :
    ((stateOf (updateRoute currentStops fetchOutcome st)).directionsRequests
        = st.directionsRequests ++ [directionsUrl st.mapboxToken currentStops]
      ↔ 2 ≤ currentStops.length) ∧
    (currentStops.length < 2 → updateRoute currentStops fetchOutcome st = Except.ok st) := by
  by_cases hl : currentStops.length < 2
  · constructor
    · unfold updateRoute
      rw [if_pos (Or.inr hl)]
      constructor
      · intro h
        have h2 := congrArg List.length h
        simp only [stateOf, List.length_append, List.length_cons, List.length_nil] at h2
        omega
      · intro h
        omega
    · intro h
      unfold updateRoute
      rw [if_pos (Or.inr hl)]
  · have hguard : ¬(st.mapPresent = false ∨ currentStops.length < 2) := by
      intro hor
      rcases hor with h1 | h2
      · rw [hm] at h1
        simp at h1
      · exact hl h2
    constructor
    · unfold updateRoute
      rw [if_neg hguard]
      cases fetchOutcome with
      | error e => exact iff_of_true rfl (by omega)
      | ok routes =>
          cases routes with
          | nil => exact iff_of_true rfl (by omega)
          | cons g gs => exact iff_of_true rfl (by omega)
    · intro h
      exact absurd h hl

/-- C2 witness: at a single-stop state with the map present, `updateRoute`
returns the state unchanged (the pre-existing overlay included) and the
request log does not grow. -/
theorem updateRoute_guard_witness :
    updateRoute [stopA] (Except.ok []) { st0 with routeOverlay := some { geojson := "old" } }
      = Except.ok { st0 with routeOverlay := some { geojson := "old" } } :=
  (updateRoute_guard [stopA] (Except.ok [])
      { st0 with routeOverlay := some { geojson := "old" } } (by decide)).2 (by decide)

/-- C3 counterexample: the claim says removal removes exactly one entry for
every list and identifier, but removing an identifier that no entry
carries removes nothing: on the one-stop list `[A]` (id `a`),
`removeStop "z"` leaves the length at 1 instead of 0. -/
theorem removeStop_counterexample :
    ¬ ((removeStop "z" (Except.ok []) { st0 with stops := [stopA] }).stops.length + 1
        = ({ st0 with stops := [stopA] } : AppState).stops.length) := by
  decide

/-- C3 amended: `removeStop id` removes exactly the entries whose
identifier equals `id` (a filter), the remaining entries keep their
relative order (the result is a sublist of the original), and when
exactly one entry carries the identifier, exactly one entry is removed. -/
theorem removeStop_spec (id : String)
    (routeOutcome : Except Unit (List RouteGeometry)) (st : AppState) :
    (removeStop id routeOutcome st).stops
        = st.stops.filter (fun s => decide (s.id ≠ id)) ∧
    List.Sublist (removeStop id routeOutcome st).stops st.stops ∧
    (st.stops.countP (fun s => decide (s.id = id)) = 1 →
      (removeStop id routeOutcome st).stops.length + 1 = st.stops.length) := by
  have hstops : (removeStop id routeOutcome st).stops
      = st.stops.filter (fun s => decide (s.id ≠ id)) :=
    (updateRoute_preserves (st.stops.filter (fun s => decide (s.id ≠ id))) routeOutcome
      { st with stops := st.stops.filter (fun s => decide (s.id ≠ id)) }).1
  refine ⟨hstops, ?_, ?_⟩
  · rw [hstops]
    exact List.filter_sublist st.stops
  · intro hc
    rw [hstops]
    have h := countP_filter_ne_id id st.stops
    omega

/-- C3 witness: on `[A, B]` the identifier `a` occurs exactly once and
removal shrinks the list from 2 entries to 1. -/
theorem removeStop_spec_witness :
    (removeStop "a" (Except.ok []) { st0 with stops := [stopA, stopB] }).stops.length + 1
      = ({ st0 with stops := [stopA, stopB] } : AppState).stops.length := by
  exact (removeStop_spec "a" (Except.ok [])
      { st0 with stops := [stopA, stopB] }).2.2 (by decide)

/-- C4: a query shorter than 3 characters (the empty query included, its
length being 0) makes `searchLocations` clear the results and change
nothing else — in particular no geocoding request is issued and no toast
is emitted. -/
theorem searchLocations_short_query (query : String)
    (fetchOutcome : Except Unit (List SearchResult)) (st : AppState)
    (h : query.length < 3) :
    searchLocations query fetchOutcome st = { st with searchResults := [] } := by
  unfold searchLocations
  rw [if_pos h]

/-- C4 witness: the empty query, on a state holding a stale result, clears
the results and issues no request. -/
theorem searchLocations_short_query_witness :
    searchLocations "" (Except.ok [])
        { st0 with searchResults := [{ place_name := "Lund", center := (1, 2) }] }
      = { st0 with searchResults := [] } := by
  have h := searchLocations_short_query "" (Except.ok [])
      { st0 with searchResults := [{ place_name := "Lund", center := (1, 2) }] } (by decide)
  rw [h]

/-- C5: a map click with a pending stop name appends a stop carrying that
name at the clicked coordinate (and clears the pending name); a click
without one changes nothing except emitting the missing-name toast. -/
theorem handleMapClick_spec (clicked : Int × Int) (newId : String)
    (routeOutcome : Except Unit (List RouteGeometry)) (st : AppState) :
    (st.newStopName ≠ "" →
      (handleMapClick clicked newId routeOutcome st).stops
        = st.stops ++ [{ id := newId, name := st.newStopName, coordinates := clicked }] ∧
      (handleMapClick clicked newId routeOutcome st).newStopName = "") ∧
    (st.newStopName = "" →
      handleMapClick clicked newId routeOutcome st
        = { st with notifications := st.notifications ++ [nameMissingToast] }) := by
  constructor
  · intro h
    unfold handleMapClick
    rw [if_pos h]
    exact ⟨(addStop_effects _ _ _).1, rfl⟩
  · intro h
    unfold handleMapClick
    rw [if_neg (by simp [h])]
    rfl

/-- C5 witness: with pending name `Lund`, clicking at `(5,6)` appends the
stop; with no pending name, clicking only emits the toast. -/
theorem handleMapClick_spec_witness :
    (handleMapClick (5, 6) "d" (Except.ok []) { st0 with newStopName := "Lund" }).stops
        = [{ id := "d", name := "Lund", coordinates := (5, 6) }] ∧
    handleMapClick (5, 6) "d" (Except.ok []) st0
        = { st0 with notifications := [nameMissingToast] } := by
  constructor
  · have h := (handleMapClick_spec (5, 6) "d" (Except.ok [])
        { st0 with newStopName := "Lund" }).1 (by decide)
    rw [h.1]
    rfl
  · have h := (handleMapClick_spec (5, 6) "d" (Except.ok []) st0).2 (by decide)
    rw [h]
    rfl

/-- C6: `addStop` appends the new stop at the end of the list; the prior
entries and their order are untouched. -/
theorem addStop_appends (newStop : Stop)
    (routeOutcome : Except Unit (List RouteGeometry)) (st : AppState) :
    (addStop newStop routeOutcome st).stops = st.stops ++ [newStop] :=
  (addStop_effects newStop routeOutcome st).1

/-- C7: selecting a search result with no pending stop name leaves every
piece of state unchanged except appending exactly one notification. -/
theorem handleSearchSelect_no_name (result : SearchResult) (newId : String)
    (routeOutcome : Except Unit (List RouteGeometry)) (st : AppState)
    (h : st.newStopName = "") :
    handleSearchSelect result newId routeOutcome st
      = { st with notifications := st.notifications ++ [nameMissingToast] } := by
  unfold handleSearchSelect
  rw [if_neg (by simp [h])]
  rfl

/-- C7 witness: selecting a result at the base state (no pending name)
emits exactly the missing-name toast and nothing else. -/
theorem handleSearchSelect_no_name_witness :
    handleSearchSelect { place_name := "Lund", center := (1, 2) } "e" (Except.ok []) st0
      = { st0 with notifications := [nameMissingToast] } := by
  have h := handleSearchSelect_no_name { place_name := "Lund", center := (1, 2) } "e"
      (Except.ok []) st0 (by decide)
  rw [h]
  rfl

/-- C8: a failing geocoding fetch is caught inside `searchLocations`, which
returns normally having emitted exactly one generic error toast; a failing
directions fetch inside `updateRoute` is not caught and the call ends in
`Except.error` — an unhandled rejection. -/
theorem error_handling_spec (query : String) (currentStops : List Stop) (st : AppState)
    (hq : 3 ≤ query.length) (hm : st.mapPresent = true) (hs : 2 ≤ currentStops.length) :
    searchLocations query (Except.error ()) st
      = { st with
          geocodingRequests := st.geocodingRequests ++ [geocodingUrl st.mapboxToken query],
          notifications := st.notifications ++ [searchErrorToast] } ∧
    updateRoute currentStops (Except.error ()) st
      = Except.error
          { st with directionsRequests :=
              st.directionsRequests ++ [directionsUrl st.mapboxToken currentStops] } := by
  constructor
  · unfold searchLocations
    rw [if_neg (by omega)]
    rfl
  · unfold updateRoute
    rw [if_neg (by simp [hm]; omega)]
    rfl

/-- C8 witness: the query `abc` on the base state, and the two-stop list
`[A, B]`, exercise both halves at concrete inputs. -/
theorem error_handling_spec_witness :
    searchLocations "abc" (Except.error ()) st0
      = { st0 with
          geocodingRequests := [geocodingUrl st0.mapboxToken "abc"],
          notifications := [searchErrorToast] } ∧
    updateRoute [stopA, stopB] (Except.error ()) st0
      = Except.error
          { st0 with directionsRequests := [directionsUrl st0.mapboxToken [stopA, stopB]] } := by
  have h := error_handling_spec "abc" [stopA, stopB] st0 (by decide) (by decide) (by decide)
  exact h

/-- C9: with the map present and at least two stops, the directions request
is the driving-directions URL over the stops' coordinate pairs in list
order joined with semicolons, and of the returned candidates only the
first one's geometry reaches the overlay (the rest are ignored). -/
theorem updateRoute_request_first_route (currentStops : List Stop) (g : RouteGeometry)
    (rest : List RouteGeometry) (st : AppState)
    (hm : st.mapPresent = true) (hs : 2 ≤ currentStops.length) :
    updateRoute currentStops (Except.ok (g :: rest)) st
      = Except.ok { st with
          directionsRequests := st.directionsRequests
            ++ ["https://api.mapbox.com/directions/v5/mapbox/driving/"
                ++ String.intercalate ";"
                    (currentStops.map (fun s => coordPairString s.coordinates))
                ++ "?geometries=geojson&access_token=" ++ st.mapboxToken],
          routeOverlay := some g } := by
  unfold updateRoute
  rw [if_neg (by simp [hm]; omega)]
  rfl

/-- C9 witness: for `[A(10,20), B(12,22)]` the request joins `10,20` and
`12,22` with a semicolon, and of two candidates only the first is kept. -/
theorem updateRoute_request_first_route_witness :
    updateRoute [stopA, stopB]
        (Except.ok [{ geojson := "first" }, { geojson := "second" }]) st0
      = Except.ok { st0 with
          directionsRequests :=
            ["https://api.mapbox.com/directions/v5/mapbox/driving/10,20;12,22?geometries=geojson&access_token=token"],
          routeOverlay := some { geojson := "first" } } := by
  have h := updateRoute_request_first_route [stopA, stopB] { geojson := "first" }
      [{ geojson := "second" }] st0 (by decide) (by decide)
  rw [h]
  rfl

/-- C10: whatever the outcome of the directions fetch — a failure included —
`addStop` appends the stop and emits its confirmation toast: the stop stays
in the list and the notification has been emitted, with no rollback. -/
theorem addStop_no_rollback (newStop : Stop) (st : AppState) :
    ∀ routeOutcome : Except Unit (List RouteGeometry),
      (addStop newStop routeOutcome st).stops = st.stops ++ [newStop] ∧
      (addStop newStop routeOutcome st).notifications
        = st.notifications ++ [addedToast newStop] :=
  fun routeOutcome => addStop_effects newStop routeOutcome st
